import Mathlib

/-!
A shallow embedding of the two core components of the game-gallery
repository, together with proofs of the specified properties.

* `GameGallery.Steam` embeds the Go search cache
  (`backend/internal/services/steam.go`): the TTL-guarded read path of
  `Search`, the upstream call `searchSteamStore`, and the periodic sweep
  `startCacheCleanup`.  Time is modelled as an `Int` number of
  nanoseconds (matching Go's `time.Duration`); the in-memory Go map is
  modelled as an association list; the upstream HTTP exchange is
  modelled as an explicit outcome parameter.

* `GameGallery.GitHub` embeds the TypeScript document-store client
  (`apps/web/src/services/github.ts`): `loadConfig`, `fetchGames`,
  `fetchRawFile`, `concurrentUpdateGames` and `updateGames`.  The
  configuration store (localStorage), the HTTP responses, and the
  base64/JSON codec layer are modelled as explicit parameters; the
  remote GitHub contents API (an external collaborator) is modelled as
  a compare-and-swap state machine so that whole update runs can be
  analysed.
-/

set_option autoImplicit false

namespace GameGallery

namespace Steam

/-- `models.SteamApp` (backend/internal/models): an app id and a name. -/
structure SteamApp where
  appID : Int
  name : String
deriving DecidableEq, Repr

/-- One element of the anonymous `items` payload decoded by
`searchSteamStore` (steam.go lines 109-116). -/
structure SteamItem where
  id : Int
  itemType : String
  name : String
  tinyImage : String
deriving DecidableEq, Repr

/-- `searchCacheDuration = 10 * time.Minute` (steam.go line 21), in
nanoseconds, matching Go's `time.Duration` representation. -/
def searchCacheDuration : Int := 10 * 60 * 1000000000

/-- `searchCacheEntry` (steam.go lines 25-28). -/
structure SearchCacheEntry where
  results : List SteamApp
  timestamp : Int
deriving DecidableEq, Repr

/-- The `searchCache map[string]*searchCacheEntry` field, modelled as an
association list with at most one binding per key. -/
abbrev Cache := List (String × SearchCacheEntry)

/-- Go map read `s.searchCache[cacheKey]`. -/
def lookupEntry : Cache → String → Option SearchCacheEntry
  | [], _ => none
  | (k, e) :: rest, key => if k = key then some e else lookupEntry rest key

/-- Go map write `s.searchCache[cacheKey] = &entry`: replaces the
binding for `key` if present, otherwise appends it. -/
def insertEntry : Cache → String → SearchCacheEntry → Cache
  | [], key, e => [(key, e)]
  | (k, e0) :: rest, key, e =>
    if k = key then (key, e) :: rest else (k, e0) :: insertEntry rest key e

/-- The outcome of the upstream HTTP exchange performed by
`searchSteamStore`: either the transport fails (`httpClient.Get` returns
an error), or a response arrives with a status code and a body that
either decodes to an item list or fails to decode (`none`). -/
inductive UpstreamOutcome where
  | netError
  | resp (status : Int) (body : Option (List SteamItem))
deriving DecidableEq, Repr

/-- The filtering loop of `searchSteamStore` (steam.go lines 123-131):
keep items of type `"app"` while fewer than `limit` apps are kept. -/
def filterApps (items : List SteamItem) (limit : Int) : List SteamApp :=
  items.foldl
    (fun apps item =>
      if item.itemType = "app" ∧ (apps.length : Int) < limit then
        apps ++ [⟨item.id, item.name⟩]
      else apps)
    []

/-- `searchSteamStore` (steam.go lines 96-134): `none` models returning
a non-nil `error` (transport failure, a status other than 200, or a body
that fails to decode); `some apps` models a successful return. -/
def searchSteamStore (o : UpstreamOutcome) (limit : Int) :
    Option (List SteamApp) :=
  match o with
  | .netError => none
  | .resp status body =>
    if status ≠ 200 then none
    else
      match body with
      | none => none
      | some items => some (filterApps items limit)

/-- The ASCII white space set of Go's `strings.TrimSpace`
(`"\t\n\v\f\r "`). -/
def isSpace (c : Char) : Bool :=
  c = ' ' || c = '\t' || c = '\n' || c = '\x0b' || c = '\x0c' || c = '\r'

/-- `strings.TrimSpace` (steam.go line 159): drop leading and trailing
white space. -/
def trimSpace (s : String) : String :=
  ⟨((s.data.dropWhile isSpace).reverse.dropWhile isSpace).reverse⟩

/-- `fmt.Sprintf("%s:%d", query, limit)` (steam.go line 160); `query`
here is the already-trimmed query text. -/
def cacheKey (query : String) (limit : Int) : String :=
  query ++ ":" ++ toString limit

/-- The `SteamService` state relevant to `Search`: its cache map. -/
structure SteamService where
  searchCache : Cache
deriving DecidableEq, Repr

/-- The observable outcome of one `Search` call: the value returned
(`none` models a non-nil error), the cache map afterwards, and whether
the upstream API was called. -/
structure SearchRun where
  result : Option (List SteamApp)
  cache : Cache
  upstreamCalled : Bool
deriving DecidableEq, Repr

/-- The cache-miss tail of `Search` (steam.go lines 173-188): call
`searchSteamStore`; on error return the error and cache nothing; on
success store the results under `key` with the current time. -/
def searchMiss (s : SteamService) (key : String) (limit : Int) (now : Int)
    (up : UpstreamOutcome) : SearchRun :=
  match searchSteamStore up limit with
  | none => ⟨none, s.searchCache, true⟩
  | some apps => ⟨some apps, insertEntry s.searchCache key ⟨apps, now⟩, true⟩

/-- `Search` (steam.go lines 154-189).  The literal empty query returns
immediately; otherwise the query is trimmed, the key is built from the
trimmed query and the limit, a fresh cache entry (strictly younger than
`searchCacheDuration`) is returned without an upstream call, and
otherwise the upstream path runs.  `now` is the time observed by the
call. -/
def Search (s : SteamService) (query : String) (limit : Int) (now : Int)
    (up : UpstreamOutcome) : SearchRun :=
  if query = "" then ⟨some [], s.searchCache, false⟩
  else
    match lookupEntry s.searchCache (cacheKey (trimSpace query) limit) with
    | some cached =>
      if now - cached.timestamp < searchCacheDuration then
        ⟨some cached.results, s.searchCache, false⟩
      else searchMiss s (cacheKey (trimSpace query) limit) limit now up
    | none => searchMiss s (cacheKey (trimSpace query) limit) limit now up

/-- One cycle of `startCacheCleanup` (steam.go lines 141-149): delete
every entry strictly older than `searchCacheDuration`. -/
def sweepCache (now : Int) : Cache → Cache
  | [] => []
  | (k, e) :: rest =>
    if now - e.timestamp > searchCacheDuration then sweepCache now rest
    else (k, e) :: sweepCache now rest

end Steam

namespace GitHub

/-- `Genre` (apps/web/src/types.ts). -/
structure Genre where
  id : String
  description : String
deriving DecidableEq, Repr

/-- `GameStatus` (apps/web/src/types.ts). -/
inductive GameStatus where
  | playing
  | queueing
  | completion
deriving DecidableEq, Repr

/-- `Game` (apps/web/src/types.ts); optional fields are `Option`s. -/
structure Game where
  id : String
  name : String
  status : GameStatus
  addedAt : String
  lastUpdated : String
  steamUrl : Option String := none
  coverImage : Option String := none
  positivePercentage : Option Int := none
  totalReviews : Option Int := none
  chinesePositivePercentage : Option Int := none
  chineseTotalReviews : Option Int := none
  releaseDate : Option String := none
  comingSoon : Option Bool := none
  isEarlyAccess : Option Bool := none
  genres : Option (List Genre) := none
  isPinned : Option Bool := none
deriving DecidableEq, Repr

/-- `GameQueueData` (apps/web/src/types.ts). -/
structure GameQueueData where
  games : List Game
deriving DecidableEq, Repr

/-- `GitHubConfig` (github.ts lines 6-10). -/
structure GitHubConfig where
  token : String
  owner : String
  repo : String
deriving DecidableEq, Repr

/-- `GITHUB_API_BASE` (apps/web/src/constants/api.ts). -/
def GITHUB_API_BASE : String := "https://api.github.com"

/-- `getGitHubFileApiUrl` (apps/web/src/constants/api.ts). -/
def getGitHubFileApiUrl (owner repo path : String) : String :=
  GITHUB_API_BASE ++ "/repos/" ++ owner ++ "/" ++ repo ++ "/contents/" ++ path

/-- `FILE_PATH` (github.ts line 31). -/
def FILE_PATH : String := "games.json"

/-- What `JSON.parse` yields for the string stored under
`github_config`, as far as `loadConfig` can distinguish:
* `invalid`: `JSON.parse` throws (caught, `loadConfig` returns null);
* `nullish`: a falsy value (`null`, `false`, `0`, `""`), so the
  `!this.config` guard returns null;
* `nonObject`: a truthy primitive; the later property assignment
  `this.config.owner = ...` throws in strict mode (caught, null);
* `obj c`: an object, whose `token`/`owner`/`repo` properties are read
  as strings (an absent property behaves like the empty string on
  every path `loadConfig` takes). -/
inductive StoredJson where
  | invalid
  | nullish
  | nonObject
  | obj (c : GitHubConfig)
deriving DecidableEq, Repr

/-- The owner hard-coded at github.ts line 57. -/
def fixedOwner : String := "catalyzer-dot"

/-- The repo hard-coded at github.ts line 57. -/
def fixedRepo : String := "game-gallery"

/-- The outcome of `loadConfig`: the value returned (also assigned to
`this.config` on the non-null paths) and the value stored under
`github_config` afterwards. -/
structure LoadConfigResult where
  config : Option GitHubConfig
  storage : Option StoredJson
deriving DecidableEq, Repr

/-- `loadConfig` (github.ts lines 40-68), as a function of the value
stored under `github_config` (`none` = key absent).  A parsed object
whose owner or repo differs from the hard-coded pair is rewritten and
written back with `localStorage.setItem`. -/
def loadConfig (stored : Option StoredJson) : LoadConfigResult :=
  match stored with
  | none => ⟨none, none⟩
  | some .invalid => ⟨none, some .invalid⟩
  | some .nullish => ⟨none, some .nullish⟩
  | some .nonObject => ⟨none, some .nonObject⟩
  | some (.obj c) =>
    if c.owner ≠ fixedOwner ∨ c.repo ≠ fixedRepo then
      let c2 : GitHubConfig := { c with owner := fixedOwner, repo := fixedRepo }
      ⟨some c2, some (.obj c2)⟩
    else ⟨some c, some (.obj c)⟩

/-- The `GitHubService` state the claims depend on: its `config`
field. -/
structure GitHubService where
  config : Option GitHubConfig
deriving DecidableEq, Repr

/-- `isConfigured` (github.ts lines 80-82): the config is non-null and
its three string fields are truthy (non-empty). -/
def isConfigured (s : GitHubService) : Bool :=
  match s.config with
  | none => false
  | some c => c.token != "" && c.owner != "" && c.repo != ""

/-- `getApiUrl` (github.ts lines 88-95). -/
def getApiUrl (s : GitHubService) (path : String) : Option String :=
  match s.config with
  | none => none
  | some c => some (getGitHubFileApiUrl c.owner c.repo path)

/-- The header record built by `getHeaders` (github.ts lines 103-107). -/
structure RequestHeaders where
  authorization : String
  accept : String
  contentType : String
deriving DecidableEq, Repr

/-- `getHeaders` (github.ts lines 97-108). -/
def getHeaders (s : GitHubService) : Option RequestHeaders :=
  match s.config with
  | none => none
  | some c =>
    some ⟨"Bearer " ++ c.token, "application/vnd.github.v3+json",
      "application/json"⟩

/-- What decoding the base64 `content` field of a GitHub file response
yields: either the `atob`/`decodeURIComponent`/`JSON.parse` chain
throws (`undecodable`), or it produces a `GameQueueData`. -/
inductive RawContent where
  | undecodable
  | decoded (d : GameQueueData)
deriving DecidableEq, Repr

/-- The JSON object of a 200 GET response (`GitHubFileResponse`,
github.ts lines 12-15).  `content = none` models a falsy/absent
`content` field (decoding it also throws). -/
structure FileJson where
  content : Option RawContent
  sha : String
deriving DecidableEq, Repr

/-- A GET response as the client observes it: status code, the `ok`
flag, and the body: `none` = `response.json()` threw, `some none` =
`response.json()` returned a falsy value, `some (some d)` = it
returned the object `d`. -/
structure GetResponse where
  status : Int
  ok : Bool
  body : Option (Option FileJson)
deriving DecidableEq, Repr

/-- The outcome of the GET exchange: a transport failure (the `fetch`
promise rejects) or a response. -/
inductive GetOutcome where
  | netError
  | resp (r : GetResponse)
deriving DecidableEq, Repr

/-- `fetchGames` (github.ts lines 114-161) as a function of the GET
outcome.  A 404 yields the empty document; a non-ok status, a body
that cannot be read or decoded, or a transport error yield `none`. -/
def fetchGames (s : GitHubService) (o : GetOutcome) : Option GameQueueData :=
  if !(isConfigured s) then none
  else
    match getApiUrl s FILE_PATH, getHeaders s with
    | some _, some _ =>
      (match o with
       | .netError => none
       | .resp r =>
         if r.status = 404 then some ⟨[]⟩
         else if !r.ok then none
         else
           match r.body with
           | none => none
           | some none => none
           | some (some d) =>
             match d.content with
             | none => none
             | some .undecodable => none
             | some (.decoded gd) => some gd)
    | _, _ => none

/-- The value returned by `fetchRawFile` on success:
`{ data, sha? }` (github.ts line 267). -/
structure RawFileData where
  data : Option FileJson
  sha : Option String
deriving DecidableEq, Repr

/-- `fetchRawFile` (github.ts lines 267-304): a 404 yields
`{ data: null }` (no sha, the file will be created); a 200 with a
truthy JSON body yields the body and its `sha`; everything else yields
`none`. -/
def fetchRawFile (s : GitHubService) (o : GetOutcome) : Option RawFileData :=
  match getApiUrl s FILE_PATH, getHeaders s with
  | some _, some _ =>
    (match o with
     | .netError => none
     | .resp r =>
       if r.status = 404 then some ⟨none, none⟩
       else if !r.ok then none
       else
         match r.body with
         | none => none
         | some none => none
         | some (some d) => some ⟨some d, some d.sha⟩)
  | _, _ => none

/-- The body of the PUT request issued by `concurrentUpdateGames`
(github.ts lines 233-237): the commit message, the new game list (the
encoded `content`), and the sha included for the compare-and-swap
(`none` when the file did not exist, so `JSON.stringify` drops it). -/
structure PutRequest where
  message : String
  games : List Game
  sha : Option String
deriving DecidableEq, Repr

/-- The outcome of the PUT exchange: transport failure or a response
with a status code and `ok` flag. -/
inductive PutOutcome where
  | netError
  | resp (status : Int) (ok : Bool)
deriving DecidableEq, Repr

/-- Steps 1-2 of `concurrentUpdateGames` (github.ts lines 200-224):
fetch the raw file, decode the current list (a missing file is the
empty list; an unreadable or undecodable `content` aborts), and apply
the updater.  Returns the new list together with the sha that will be
submitted with the PUT, or `none` when the run aborts before the
PUT. -/
def updatePrepare (s : GitHubService) (getO : GetOutcome)
    (updater : List Game → List Game) : Option (List Game × Option String) :=
  match fetchRawFile s getO with
  | none => none
  | some fd =>
    match fd.data with
    | none => some (updater [], fd.sha)
    | some d =>
      match d.content with
      | some (.decoded gd) => some (updater gd.games, fd.sha)
      | some .undecodable => none
      | none => none

/-- Step 3 of `concurrentUpdateGames` (github.ts lines 240-256): a 409
is the conflict path and returns null; any other non-ok response or a
transport failure returns null; on success the new list is returned. -/
def putResult (putO : PutOutcome) (newGames : List Game) :
    Option (List Game) :=
  match putO with
  | .netError => none
  | .resp status ok =>
    if status = 409 then none
    else if !ok then none
    else some newGames

/-- `concurrentUpdateGames` (github.ts lines 180-261), as a function of
the GET outcome and of the environment's reaction `put` to the PUT
request the client sends. -/
def concurrentUpdateGames (s : GitHubService) (getO : GetOutcome)
    (put : PutRequest → PutOutcome) (updater : List Game → List Game)
    (msg : String) : Option (List Game) :=
  if !(isConfigured s) then none
  else
    match getApiUrl s FILE_PATH, getHeaders s with
    | some _, some _ =>
      (match updatePrepare s getO updater with
       | none => none
       | some (newGames, sha) =>
         putResult (put ⟨msg, newGames, sha⟩) newGames)
    | _, _ => none

/-- `updateGames` (github.ts lines 169-171): delegate to
`concurrentUpdateGames` with the constant transform
`() => gameData.games`. -/
def updateGames (s : GitHubService) (gameData : GameQueueData)
    (msg : String) (getO : GetOutcome) (put : PutRequest → PutOutcome) :
    Option (List Game) :=
  concurrentUpdateGames s getO put (fun _ => gameData.games) msg

/-- The remote document store: `none` = the file was never created,
`some (games, sha)` = the stored list and its version token. -/
structure RemoteState where
  doc : Option (List Game × String)
deriving DecidableEq, Repr

/-- Model of the external GitHub contents API answering the GET: a
missing file is a 404, an existing file is a 200 whose body carries
the decoded list and the current sha. -/
def serveGet (r : RemoteState) : GetOutcome :=
  match r.doc with
  | none => .resp ⟨404, false, some none⟩
  | some (gs, sha) =>
    .resp ⟨200, true, some (some ⟨some (.decoded ⟨gs⟩), sha⟩)⟩

/-- Model of the external GitHub contents API answering the PUT, as a
compare-and-swap on the sha (spec section 6): creating a missing file
with no expected sha succeeds (201); a matching expected sha replaces
the document (200) and installs `newSha`; a stale or missing-file
expected sha is a 409 conflict; writing over an existing file without
a sha is a 422.  A rejected write leaves the store unchanged. -/
def servePut (r : RemoteState) (req : PutRequest) (newSha : String) :
    PutOutcome × RemoteState :=
  match r.doc, req.sha with
  | none, none => (.resp 201 true, ⟨some (req.games, newSha)⟩)
  | none, some _ => (.resp 409 false, r)
  | some (gs, cur), some sh =>
    if sh = cur then (.resp 200 true, ⟨some (req.games, newSha)⟩)
    else (.resp 409 false, ⟨some (gs, cur)⟩)
  | some _, none => (.resp 422 false, r)

/-- The observable outcome of one whole update run: the value the
client returned, the remote store afterwards, and how many write
attempts the client made. -/
structure UpdateRun where
  result : Option (List Game)
  remote : RemoteState
  writeAttempts : Nat
deriving DecidableEq, Repr

/-- One run of `concurrentUpdateGames` against the remote store model:
the client GETs from `r0`; a concurrent writer turns the store into
`interfere r0` between the GET and the PUT; the PUT is then served
against that state (installing `newSha` if it succeeds).  Runs that
abort before the PUT make no write attempt. -/
def concurrentUpdateGamesRun (s : GitHubService) (r0 : RemoteState)
    (interfere : RemoteState → RemoteState) (newSha : String)
    (updater : List Game → List Game) (msg : String) : UpdateRun :=
  if !(isConfigured s) then ⟨none, interfere r0, 0⟩
  else
    match getApiUrl s FILE_PATH, getHeaders s with
    | some _, some _ =>
      (match updatePrepare s (serveGet r0) updater with
       | none => ⟨none, interfere r0, 0⟩
       | some (newGames, sha) =>
         ⟨putResult (servePut (interfere r0) ⟨msg, newGames, sha⟩ newSha).1
            newGames,
          (servePut (interfere r0) ⟨msg, newGames, sha⟩ newSha).2, 1⟩)
    | _, _ => ⟨none, interfere r0, 0⟩

/-- One run of `updateGames` (github.ts line 170) against the remote
store model: the transform is the constant function of the fetched
list. -/
def updateGamesRun (s : GitHubService) (gameData : GameQueueData)
    (msg : String) (r0 : RemoteState)
    (interfere : RemoteState → RemoteState) (newSha : String) : UpdateRun :=
  concurrentUpdateGamesRun s r0 interfere newSha (fun _ => gameData.games) msg

/-- A concrete game used to instantiate theorems. -/
def gameA : Game :=
  { id := "1", name := "A", status := .playing, addedAt := "t0",
    lastUpdated := "t0" }

/-- A second concrete game used to instantiate theorems. -/
def gameB : Game :=
  { id := "2", name := "B", status := .queueing, addedAt := "t1",
    lastUpdated := "t1" }

/-- A concrete configured service used to instantiate theorems. -/
def testService : GitHubService := ⟨some ⟨"tok", "o", "r"⟩⟩

end GitHub

open Steam GitHub

/-! ## Supporting lemmas -/

/-- A configured service holds a config record. -/
theorem isConfigured_some {s : GitHubService} (h : isConfigured s = true) :
    ∃ c : GitHubConfig, s.config = some c := by
  cases hc : s.config with
  | none => simp [isConfigured, hc] at h
  | some c => exact ⟨c, rfl⟩

/-- A PUT rejected with 409 leaves the remote store unchanged. -/
theorem servePut_conflict_state (r : RemoteState) (req : PutRequest)
    (nS : String) (h : (servePut r req nS).1 = PutOutcome.resp 409 false) :
    (servePut r req nS).2 = r := by
  obtain ⟨doc⟩ := r
  obtain ⟨m, gl, sha⟩ := req
  cases doc with
  | none =>
    cases sha with
    | none => simp [servePut] at h
    | some sh => simp [servePut]
  | some p =>
    obtain ⟨g0, cur⟩ := p
    cases sha with
    | none => simp [servePut] at h
    | some sh =>
      by_cases heq : sh = cur
      · simp [servePut, heq] at h
      · simp [servePut, heq]

/-- A PUT whose client-visible outcome is success replaced the remote
document with the games of the request and installed the new sha. -/
theorem putResult_servePut (r : RemoteState) (req : PutRequest)
    (nS : String) (g gs : List Game)
    (h : putResult (servePut r req nS).1 g = some gs) :
    gs = g ∧ (servePut r req nS).2 = ⟨some (req.games, nS)⟩ := by
  obtain ⟨doc⟩ := r
  obtain ⟨m, gl, sha⟩ := req
  cases doc with
  | none =>
    cases sha with
    | none =>
      simp [servePut, putResult] at h ⊢
      exact h.symm
    | some sh => simp [servePut, putResult] at h
  | some p =>
    obtain ⟨g0, cur⟩ := p
    cases sha with
    | none => simp [servePut, putResult] at h
    | some sh =>
      by_cases heq : sh = cur
      · simp [servePut, putResult, heq] at h ⊢
        exact h.symm
      · simp [servePut, putResult, heq] at h

/-- `updatePrepare` run with a constant transform can only produce the
transform's constant value as the candidate list. -/
theorem updatePrepare_const (s : GitHubService) (g : GetOutcome)
    (v n : List Game) (sh : Option String)
    (h : updatePrepare s g (fun _ => v) = some (n, sh)) : n = v := by
  unfold updatePrepare at h
  cases hf : fetchRawFile s g with
  | none => rw [hf] at h; simp at h
  | some fd =>
    rw [hf] at h
    obtain ⟨data, fsha⟩ := fd
    cases data with
    | none =>
      simp at h
      exact h.1.symm
    | some d =>
      obtain ⟨content, dsha⟩ := d
      cases content with
      | none => simp at h
      | some rc =>
        cases rc with
        | undecodable => simp at h
        | decoded gd =>
          simp at h
          exact h.1.symm

/-! ## Claim C1 -/

/-- Claim C1: when the remote write of a `concurrentUpdateGames` run is
rejected with a 409 version conflict, the run returns failure (`none`),
makes exactly one write attempt (so it neither retries nor
force-overwrites), and the remote store is left exactly as the
concurrent writer left it. -/
theorem c1_conflict_fails_without_retry
    (s : GitHubService) (r0 : RemoteState)
    (interfere : RemoteState → RemoteState) (newSha : String)
    (updater : List Game → List Game) (msg : String)
    (newGames : List Game) (sha : Option String)
    (hconf : isConfigured s = true)
    (hprep : updatePrepare s (serveGet r0) updater = some (newGames, sha))
    (h409 : (servePut (interfere r0) ⟨msg, newGames, sha⟩ newSha).1
      = PutOutcome.resp 409 false) :
    concurrentUpdateGamesRun s r0 interfere newSha updater msg
      = ⟨none, interfere r0, 1⟩ := by
  obtain ⟨c, hc⟩ := isConfigured_some hconf
  have hState := servePut_conflict_state (interfere r0) ⟨msg, newGames, sha⟩
    newSha h409
  simp only [concurrentUpdateGamesRun, hconf, Bool.not_true,
    Bool.false_eq_true, if_false, getApiUrl, getHeaders, hc, hprep]
  rw [h409, hState]
  simp [putResult]

/-- Instance of claim C1: the stored list `[gameA]` with sha `"s0"` is
fetched, a concurrent writer replaces it with `[gameB]` under sha
`"s1"`, and the client's PUT (carrying the stale sha `"s0"`) is
rejected with 409: the run fails, writes once, and leaves the
concurrent writer's document in place. -/
theorem c1_witness :
    isConfigured testService = true ∧
    updatePrepare testService (serveGet ⟨some ([gameA], "s0")⟩)
      (fun gs => gs ++ [gameB]) = some ([gameA, gameB], some "s0") ∧
    (servePut ⟨some ([gameB], "s1")⟩ ⟨"m", [gameA, gameB], some "s0"⟩
      "s2").1 = PutOutcome.resp 409 false ∧
    concurrentUpdateGamesRun testService ⟨some ([gameA], "s0")⟩
      (fun _ => ⟨some ([gameB], "s1")⟩) "s2" (fun gs => gs ++ [gameB]) "m"
      = ⟨none, ⟨some ([gameB], "s1")⟩, 1⟩ :=
  ⟨by decide, by decide, by decide,
   c1_conflict_fails_without_retry testService ⟨some ([gameA], "s0")⟩
     (fun _ => ⟨some ([gameB], "s1")⟩) "s2" (fun gs => gs ++ [gameB]) "m"
     [gameA, gameB] (some "s0") (by decide) (by decide) (by decide)⟩

/-! ## Claim C2 -/

/-- Claim C2 is false on the code: a run failing by version conflict
(the PUT answers 409) and a run failing by transport error (the PUT
exchange throws) both return the bare `none`; the two outcomes are
equal, so the caller cannot tell conflict apart from the return value
alone. -/
theorem c2_counterexample :
    concurrentUpdateGames testService (serveGet ⟨some ([gameA], "s0")⟩)
      (fun _ => PutOutcome.resp 409 false) (fun gs => gs ++ [gameB]) "m"
      = none ∧
    concurrentUpdateGames testService (serveGet ⟨some ([gameA], "s0")⟩)
      (fun _ => PutOutcome.netError) (fun gs => gs ++ [gameB]) "m"
      = none ∧
    concurrentUpdateGames testService (serveGet ⟨some ([gameA], "s0")⟩)
      (fun _ => PutOutcome.resp 409 false) (fun gs => gs ++ [gameB]) "m"
      = concurrentUpdateGames testService (serveGet ⟨some ([gameA], "s0")⟩)
        (fun _ => PutOutcome.netError) (fun gs => gs ++ [gameB]) "m" :=
  ⟨by decide, by decide, by decide⟩

/-- Claim C2 amended: the value returned by `concurrentUpdateGames`
does not distinguish a version conflict from any other failure — every
failing run returns the same `none` (the conflict is reported only in
the console log), so any two failing runs have equal outcomes. -/
theorem c2_amended_failures_indistinguishable
    (s t : GitHubService) (gs gt : GetOutcome)
    (ps pt : PutRequest → PutOutcome)
    (us ut : List Game → List Game) (ms mt : String)
    (hs : concurrentUpdateGames s gs ps us ms = none)
    (ht : concurrentUpdateGames t gt pt ut mt = none) :
    concurrentUpdateGames s gs ps us ms
      = concurrentUpdateGames t gt pt ut mt := by
  rw [hs, ht]

/-- Instance of amended claim C2: a conflict-failing run and a
transport-failing run return equal outcomes. -/
theorem c2_amended_witness :
    concurrentUpdateGames testService (serveGet ⟨some ([gameA], "s0")⟩)
      (fun _ => PutOutcome.resp 409 false) (fun gs => gs ++ [gameB]) "m"
      = concurrentUpdateGames testService GetOutcome.netError
        (fun _ => PutOutcome.netError) (fun gs => gs ++ [gameB]) "m" :=
  c2_amended_failures_indistinguishable testService testService
    (serveGet ⟨some ([gameA], "s0")⟩) GetOutcome.netError
    (fun _ => PutOutcome.resp 409 false) (fun _ => PutOutcome.netError)
    (fun gs => gs ++ [gameB]) (fun gs => gs ++ [gameB]) "m" "m"
    (by decide) (by decide)

/-! ## Claim C3 -/

/-- Claim C3: on a configured service, `fetchGames` maps a 404 (the
document was never created) to the empty document `{ games := [] }`,
and maps a transport error, a non-ok non-404 status, or an unreadable
or undecodable payload to the failure outcome `none` — never to an
empty list. -/
theorem c3_fetch_distinguishes_notfound_from_failure
    (s : GitHubService) (hc : isConfigured s = true) :
    (∀ r : GetResponse, r.status = 404 →
      fetchGames s (GetOutcome.resp r) = some ⟨[]⟩) ∧
    fetchGames s GetOutcome.netError = none ∧
    (∀ r : GetResponse, r.status ≠ 404 → r.ok = false →
      fetchGames s (GetOutcome.resp r) = none) ∧
    (∀ r : GetResponse, r.status ≠ 404 →
      (r.body = none ∨ r.body = some none ∨
        (∃ sha, r.body = some (some ⟨none, sha⟩)) ∨
        (∃ sha, r.body = some (some ⟨some RawContent.undecodable, sha⟩))) →
      fetchGames s (GetOutcome.resp r) = none) := by
  obtain ⟨c, hcfg⟩ := isConfigured_some hc
  refine ⟨?_, ?_, ?_, ?_⟩
  · intro r h404
    simp [fetchGames, hc, getApiUrl, getHeaders, hcfg, h404]
  · simp [fetchGames, hc, getApiUrl, getHeaders, hcfg]
  · intro r hn404 hok
    simp [fetchGames, hc, getApiUrl, getHeaders, hcfg, hn404, hok]
  · intro r hn404 hbody
    cases hok : r.ok with
    | false => simp [fetchGames, hc, getApiUrl, getHeaders, hcfg, hn404, hok]
    | true =>
      rcases hbody with h | h | ⟨sha, h⟩ | ⟨sha, h⟩ <;>
        simp [fetchGames, hc, getApiUrl, getHeaders, hcfg, hn404, hok, h]

/-- Instance of claim C3 on a configured service: a 404 yields the
empty document; a transport fault, a 500, and an undecodable 200
payload each yield `none`. -/
theorem c3_witness :
    isConfigured testService = true ∧
    fetchGames testService (GetOutcome.resp ⟨404, false, some none⟩)
      = some ⟨[]⟩ ∧
    fetchGames testService GetOutcome.netError = none ∧
    fetchGames testService (GetOutcome.resp ⟨500, false, some none⟩)
      = none ∧
    fetchGames testService
      (GetOutcome.resp ⟨200, true,
        some (some ⟨some RawContent.undecodable, "s"⟩)⟩) = none :=
  ⟨by decide,
   (c3_fetch_distinguishes_notfound_from_failure testService (by decide)).1
     ⟨404, false, some none⟩ (by decide),
   (c3_fetch_distinguishes_notfound_from_failure testService (by decide)).2.1,
   (c3_fetch_distinguishes_notfound_from_failure testService
     (by decide)).2.2.1 ⟨500, false, some none⟩ (by decide) (by decide),
   (c3_fetch_distinguishes_notfound_from_failure testService
     (by decide)).2.2.2 ⟨200, true, some (some ⟨some .undecodable, "s"⟩)⟩
     (by decide) (Or.inr (Or.inr (Or.inr ⟨"s", rfl⟩)))⟩

/-! ## Claim C9 -/

/-- Claim C9: `updateGames` delegates to `concurrentUpdateGames` with a
transform that is constant in the fetched list, so whenever the run's
write succeeds, the value returned is `gameData.games` and the stored
remote document becomes exactly `gameData.games` — regardless of the
list the fresh fetch returned — with only the compare-and-swap version
token taken from that fetch. -/
theorem c9_updateGames_replaces_wholesale
    (s : GitHubService) (gameData : GameQueueData) (msg : String)
    (r0 : RemoteState) (interfere : RemoteState → RemoteState)
    (newSha : String) (gs : List Game)
    (h : (updateGamesRun s gameData msg r0 interfere newSha).result
      = some gs) :
    gs = gameData.games ∧
    (updateGamesRun s gameData msg r0 interfere newSha).remote
      = ⟨some (gameData.games, newSha)⟩ := by
  unfold updateGamesRun concurrentUpdateGamesRun at h ⊢
  cases hconf : isConfigured s with
  | false => simp [hconf] at h
  | true =>
    obtain ⟨c, hc⟩ := isConfigured_some hconf
    simp only [hconf, Bool.not_true, Bool.false_eq_true, if_false,
      getApiUrl, getHeaders, hc] at h ⊢
    cases hprep : updatePrepare s (serveGet r0) fun _ => gameData.games with
    | none => rw [hprep] at h; simp at h
    | some pair =>
      obtain ⟨newGames, sha⟩ := pair
      rw [hprep] at h
      have hng : newGames = gameData.games :=
        updatePrepare_const s (serveGet r0) gameData.games newGames sha hprep
      have hput := putResult_servePut (interfere r0)
        ⟨msg, newGames, sha⟩ newSha newGames gs h
      subst hng
      exact ⟨hput.1, hput.2⟩

/-- Instance of claim C9: starting from a stored `[gameA]`, a
successful `updateGames` run with payload `{ games := [gameB] }`
stores exactly `[gameB]`, discarding the fetched list. -/
theorem c9_witness :
    (updateGamesRun testService ⟨[gameB]⟩ "m" ⟨some ([gameA], "s0")⟩ id
      "s1").result = some [gameB] ∧
    ([gameB] = (⟨[gameB]⟩ : GameQueueData).games ∧
      (updateGamesRun testService ⟨[gameB]⟩ "m" ⟨some ([gameA], "s0")⟩ id
        "s1").remote = ⟨some ([gameB], "s1")⟩) :=
  ⟨by decide,
   c9_updateGames_replaces_wholesale testService ⟨[gameB]⟩ "m"
     ⟨some ([gameA], "s0")⟩ id "s1" [gameB] (by decide)⟩

/-! ## Claim C10 -/

/-- Claim C10: whenever `loadConfig` returns a non-null config, that
config's owner is `catalyzer-dot` and its repo is `game-gallery`, the
value now stored in localStorage is exactly that config, and the file
API URL built from it targets the fixed repository; moreover a stored
config whose owner or repo differs is rewritten to the fixed pair and
persisted back. -/
theorem c10_loadConfig_forces_fixed_repo (stored : Option StoredJson) :
    (∀ c : GitHubConfig, (loadConfig stored).config = some c →
      c.owner = fixedOwner ∧ c.repo = fixedRepo ∧
      (loadConfig stored).storage = some (StoredJson.obj c) ∧
      getApiUrl ⟨some c⟩ FILE_PATH
        = some (getGitHubFileApiUrl fixedOwner fixedRepo FILE_PATH)) ∧
    (∀ c0 : GitHubConfig, stored = some (StoredJson.obj c0) →
      (c0.owner ≠ fixedOwner ∨ c0.repo ≠ fixedRepo) →
      loadConfig stored
        = ⟨some { c0 with owner := fixedOwner, repo := fixedRepo },
           some (StoredJson.obj
             { c0 with owner := fixedOwner, repo := fixedRepo })⟩) := by
  constructor
  · intro c hc
    match stored with
    | none => simp [loadConfig] at hc
    | some .invalid => simp [loadConfig] at hc
    | some .nullish => simp [loadConfig] at hc
    | some .nonObject => simp [loadConfig] at hc
    | some (.obj c0) =>
      by_cases hrw : c0.owner ≠ fixedOwner ∨ c0.repo ≠ fixedRepo
      · rw [loadConfig, if_pos hrw] at hc ⊢
        simp only [Option.some_inj] at hc
        subst hc
        exact ⟨rfl, rfl, rfl, by simp [getApiUrl]⟩
      · rw [loadConfig, if_neg hrw] at hc ⊢
        push_neg at hrw
        simp only [Option.some_inj] at hc
        subst hc
        exact ⟨hrw.1, hrw.2, rfl, by simp [getApiUrl, hrw.1, hrw.2]⟩
  · intro c0 hst hrw
    subst hst
    rw [loadConfig, if_pos hrw]

/-- Instance of claim C10: a stored config pointing at owner `x`, repo
`y` is rewritten to the fixed pair, returned, persisted, and the file
API URL built from the result targets the fixed repository. -/
theorem c10_witness :
    (loadConfig (some (StoredJson.obj ⟨"tok", "x", "y"⟩))).config
      = some ⟨"tok", "catalyzer-dot", "game-gallery"⟩ ∧
    ((⟨"tok", "catalyzer-dot", "game-gallery"⟩ : GitHubConfig).owner
        = fixedOwner ∧
      (⟨"tok", "catalyzer-dot", "game-gallery"⟩ : GitHubConfig).repo
        = fixedRepo ∧
      (loadConfig (some (StoredJson.obj ⟨"tok", "x", "y"⟩))).storage
        = some (StoredJson.obj ⟨"tok", "catalyzer-dot", "game-gallery"⟩) ∧
      getApiUrl ⟨some ⟨"tok", "catalyzer-dot", "game-gallery"⟩⟩ FILE_PATH
        = some (getGitHubFileApiUrl fixedOwner fixedRepo FILE_PATH)) :=
  ⟨by decide,
   (c10_loadConfig_forces_fixed_repo
     (some (StoredJson.obj ⟨"tok", "x", "y"⟩))).1
     ⟨"tok", "catalyzer-dot", "game-gallery"⟩ (by decide)⟩

/-- Left cancellation for string concatenation. -/
theorem string_append_left_cancel {a b c : String} (h : a ++ b = a ++ c) :
    b = c := by
  have hd : a.data ++ b.data = a.data ++ c.data := by
    have h2 := congrArg String.data h
    simpa [String.data_append] using h2
  have h3 : b.data = c.data := List.append_cancel_left hd
  cases b
  cases c
  exact congrArg String.mk h3

/-! ## Claim C4 -/

/-- Claim C4 is false on the code: the cache key folds the limit in
(`fmt.Sprintf("%s:%d", query, limit)`), so `Search("a", 1)` and
`Search("a", 2)` use different keys — with an entry cached under
`"a:1"`, the first call is a cache hit with no upstream call while the
second falls through to upstream. -/
theorem c4_counterexample :
    Steam.cacheKey "a" 1 ≠ Steam.cacheKey "a" 2 ∧
    (Search ⟨[("a:1", ⟨[⟨10, "G"⟩], 0⟩)]⟩ "a" 1 0
      UpstreamOutcome.netError).upstreamCalled = false ∧
    (Search ⟨[("a:1", ⟨[⟨10, "G"⟩], 0⟩)]⟩ "a" 2 0
      UpstreamOutcome.netError).upstreamCalled = true :=
  ⟨by decide, by decide, by decide⟩

/-- Claim C4 amended: the cache key is the trimmed query joined with
the decimal rendering of the limit (`query ++ ":" ++ toString limit`),
so the limit is part of the key: two `Search` calls with the same
trimmed query read and populate the same cache entry exactly when the
decimal renderings of their limits coincide. -/
theorem c4_amended_limit_in_key (q : String) (l1 l2 : Int) :
    Steam.cacheKey q l1 = Steam.cacheKey q l2 ↔ toString l1 = toString l2 := by
  constructor
  · intro h
    unfold Steam.cacheKey at h
    exact string_append_left_cancel h
  · intro h
    simp [Steam.cacheKey, h]

/-- Instance of amended claim C4 at query `"a"`, limits 1 and 2. -/
theorem c4_amended_witness :
    Steam.cacheKey "a" 1 = Steam.cacheKey "a" 2 ↔
      toString (1 : Int) = toString (2 : Int) :=
  c4_amended_limit_in_key "a" 1 2

/-! ## Claim C5 -/

/-- Claim C5 is false on the code: the empty-query check runs before
trimming, so a whitespace-only query such as `"   "` does not
short-circuit — it calls upstream, modifies the cache on upstream
success, and can even fail. -/
theorem c5_counterexample :
    (Search ⟨[]⟩ "   " 5 0
      (UpstreamOutcome.resp 200 (some []))).upstreamCalled = true ∧
    (Search ⟨[]⟩ "   " 5 0 (UpstreamOutcome.resp 200 (some []))).cache
      ≠ ([] : Cache) ∧
    (Search ⟨[]⟩ "   " 5 0 UpstreamOutcome.netError).result = none :=
  ⟨by decide, by decide, by decide⟩

/-- Claim C5 amended: only the literally empty query `""`
short-circuits — it returns an empty list with no upstream call and an
unchanged cache; a whitespace-only query is trimmed to `""` after the
check and proceeds through the normal cache/upstream path (in
particular, with no valid entry under its key it calls upstream). -/
theorem c5_amended_only_literal_empty_short_circuits :
    (∀ (s : SteamService) (limit now : Int) (up : UpstreamOutcome),
      Search s "" limit now up = ⟨some [], s.searchCache, false⟩) ∧
    (∀ (s : SteamService) (q : String) (limit now : Int)
      (up : UpstreamOutcome), q ≠ "" → trimSpace q = "" →
      lookupEntry s.searchCache (Steam.cacheKey "" limit) = none →
      (Search s q limit now up).upstreamCalled = true) := by
  constructor
  · intro s limit now up
    simp [Search]
  · intro s q limit now up hq htrim hlk
    simp only [Search, if_neg hq, htrim, hlk]
    cases h2 : searchSteamStore up limit <;> simp [searchMiss, h2]

/-- Instance of amended claim C5: `Search("")` short-circuits while
`Search("   ")` calls upstream on an empty cache. -/
theorem c5_amended_witness :
    Search ⟨[]⟩ "" 5 0 UpstreamOutcome.netError = ⟨some [], [], false⟩ ∧
    (Search ⟨[]⟩ "   " 5 0 UpstreamOutcome.netError).upstreamCalled
      = true :=
  ⟨c5_amended_only_literal_empty_short_circuits.1 ⟨[]⟩ 5 0
     UpstreamOutcome.netError,
   c5_amended_only_literal_empty_short_circuits.2 ⟨[]⟩ "   " 5 0
     UpstreamOutcome.netError (by decide) (by decide) (by decide)⟩

/-! ## Claim C6 -/

/-- Claim C6: for a non-empty query resolving to a cache entry with
timestamp `T`, `Search` at time `now` returns the cached results with
no upstream call and an unchanged cache exactly when
`now - T < searchCacheDuration`; once `now - T` reaches the TTL it
falls through to the upstream call — and it also falls through when
the entry is absent (e.g. already removed by the sweep). -/
theorem c6_ttl_read_boundary
    (s : SteamService) (q : String) (limit now : Int) (up : UpstreamOutcome)
    (hq : q ≠ "") :
    (∀ e : SearchCacheEntry,
      lookupEntry s.searchCache (Steam.cacheKey (trimSpace q) limit)
        = some e →
      (now - e.timestamp < searchCacheDuration →
        Search s q limit now up = ⟨some e.results, s.searchCache, false⟩) ∧
      (searchCacheDuration ≤ now - e.timestamp →
        (Search s q limit now up).upstreamCalled = true)) ∧
    (lookupEntry s.searchCache (Steam.cacheKey (trimSpace q) limit)
        = none →
      (Search s q limit now up).upstreamCalled = true) := by
  constructor
  · intro e he
    constructor
    · intro hfresh
      simp only [Search, if_neg hq, he, if_pos hfresh]
    · intro hexp
      have hnf : ¬ (now - e.timestamp < searchCacheDuration) := by omega
      simp only [Search, if_neg hq, he, if_neg hnf]
      cases h2 : searchSteamStore up limit <;> simp [searchMiss, h2]
  · intro hnone
    simp only [Search, if_neg hq, hnone]
    cases h2 : searchSteamStore up limit <;> simp [searchMiss, h2]

/-- Instance of claim C6: an entry with timestamp 0 is returned just
before the TTL and the upstream is called at exactly the TTL. -/
theorem c6_witness :
    (("a" : String) ≠ "") ∧
    lookupEntry [("a:1", ⟨[⟨10, "G"⟩], 0⟩)]
      (Steam.cacheKey (trimSpace "a") 1) = some ⟨[⟨10, "G"⟩], 0⟩ ∧
    ((searchCacheDuration - 1) - (0 : Int) < searchCacheDuration) ∧
    Search ⟨[("a:1", ⟨[⟨10, "G"⟩], 0⟩)]⟩ "a" 1 (searchCacheDuration - 1)
      UpstreamOutcome.netError
      = ⟨some [⟨10, "G"⟩], [("a:1", ⟨[⟨10, "G"⟩], 0⟩)], false⟩ ∧
    (Search ⟨[("a:1", ⟨[⟨10, "G"⟩], 0⟩)]⟩ "a" 1 searchCacheDuration
      UpstreamOutcome.netError).upstreamCalled = true :=
  ⟨by decide, by decide, by decide,
   ((c6_ttl_read_boundary ⟨[("a:1", ⟨[⟨10, "G"⟩], 0⟩)]⟩ "a" 1
       (searchCacheDuration - 1) UpstreamOutcome.netError (by decide)).1
     ⟨[⟨10, "G"⟩], 0⟩ (by decide)).1 (by decide),
   ((c6_ttl_read_boundary ⟨[("a:1", ⟨[⟨10, "G"⟩], 0⟩)]⟩ "a" 1
       searchCacheDuration UpstreamOutcome.netError (by decide)).1
     ⟨[⟨10, "G"⟩], 0⟩ (by decide)).2 (by decide)⟩

/-! ## Claim C7 -/

/-- Claim C7: when a `Search` call reaches upstream and the upstream
request fails, the call returns failure and stores nothing (the cache
is unchanged), and every later `Search` with the same query and limit
still reaches upstream again (the failure was not cached). -/
theorem c7_upstream_failures_not_cached
    (s : SteamService) (q : String) (limit now : Int) (up : UpstreamOutcome)
    (hq : q ≠ "")
    (hfail : searchSteamStore up limit = none)
    (hcalled : (Search s q limit now up).upstreamCalled = true) :
    Search s q limit now up = ⟨none, s.searchCache, true⟩ ∧
    (∀ (now2 : Int) (up2 : UpstreamOutcome), now ≤ now2 →
      (Search ⟨(Search s q limit now up).cache⟩ q limit now2
        up2).upstreamCalled = true) := by
  cases hlk : lookupEntry s.searchCache (Steam.cacheKey (trimSpace q) limit)
    with
  | none =>
    have h1 : Search s q limit now up = ⟨none, s.searchCache, true⟩ := by
      simp only [Search, if_neg hq, hlk, searchMiss, hfail]
    refine ⟨h1, ?_⟩
    intro now2 up2 _
    rw [h1]
    simp only [Search, if_neg hq, hlk]
    cases h2 : searchSteamStore up2 limit <;> simp [searchMiss, h2]
  | some e =>
    by_cases hfresh : now - e.timestamp < searchCacheDuration
    · exfalso
      have hfalse : (Search s q limit now up).upstreamCalled = false := by
        simp only [Search, if_neg hq, hlk, if_pos hfresh]
      rw [hfalse] at hcalled
      exact Bool.false_ne_true hcalled
    · have h1 : Search s q limit now up = ⟨none, s.searchCache, true⟩ := by
        simp only [Search, if_neg hq, hlk, if_neg hfresh, searchMiss, hfail]
      refine ⟨h1, ?_⟩
      intro now2 up2 hle
      have hnf2 : ¬ (now2 - e.timestamp < searchCacheDuration) := by omega
      rw [h1]
      simp only [Search, if_neg hq, hlk, if_neg hnf2]
      cases h2 : searchSteamStore up2 limit <;> simp [searchMiss, h2]

/-- Instance of claim C7: a failed upstream call caches nothing, and a
repeat of the same search still calls upstream. -/
theorem c7_witness :
    searchSteamStore UpstreamOutcome.netError 1 = none ∧
    (Search ⟨[]⟩ "a" 1 0 UpstreamOutcome.netError).upstreamCalled = true ∧
    Search ⟨[]⟩ "a" 1 0 UpstreamOutcome.netError = ⟨none, [], true⟩ ∧
    (Search ⟨(Search ⟨[]⟩ "a" 1 0 UpstreamOutcome.netError).cache⟩ "a" 1 5
      UpstreamOutcome.netError).upstreamCalled = true :=
  ⟨by decide, by decide,
   (c7_upstream_failures_not_cached ⟨[]⟩ "a" 1 0 UpstreamOutcome.netError
     (by decide) (by decide) (by decide)).1,
   (c7_upstream_failures_not_cached ⟨[]⟩ "a" 1 0 UpstreamOutcome.netError
     (by decide) (by decide) (by decide)).2 5 UpstreamOutcome.netError
     (by decide)⟩

/-! ## Claim C8 -/

/-- Claim C8: one cycle of the background sweep keeps exactly the
entries whose age at sweep time does not exceed the TTL — an entry
(key, results, timestamp) survives if and only if it was present and
not expired — and the survivors appear unchanged, in their original
order (the swept cache is a sublist of the original). -/
theorem c8_sweep_removes_exactly_expired (now : Int) (c : Cache) :
    (∀ kv : String × SearchCacheEntry,
      kv ∈ sweepCache now c ↔
        kv ∈ c ∧ now - kv.2.timestamp ≤ searchCacheDuration) ∧
    List.Sublist (sweepCache now c) c := by
  induction c with
  | nil => simp [sweepCache]
  | cons hd rest ih =>
    obtain ⟨k, e⟩ := hd
    by_cases hexp : now - e.timestamp > searchCacheDuration
    · constructor
      · intro kv
        simp only [sweepCache, if_pos hexp]
        rw [ih.1 kv]
        constructor
        · rintro ⟨hm, hf⟩
          exact ⟨List.mem_cons_of_mem _ hm, hf⟩
        · rintro ⟨hm, hf⟩
          rcases List.mem_cons.mp hm with rfl | hm2
          · exfalso
            have hf2 : now - e.timestamp ≤ searchCacheDuration := hf
            omega
          · exact ⟨hm2, hf⟩
      · simp only [sweepCache, if_pos hexp]
        exact ih.2.trans (List.sublist_cons_self _ _)
    · constructor
      · intro kv
        simp only [sweepCache, if_neg hexp, List.mem_cons]
        rw [ih.1 kv]
        constructor
        · rintro (rfl | ⟨hm, hf⟩)
          · refine ⟨Or.inl rfl, ?_⟩
            show now - e.timestamp ≤ searchCacheDuration
            omega
          · exact ⟨Or.inr hm, hf⟩
        · rintro ⟨hm, hf⟩
          rcases hm with rfl | hm2
          · exact Or.inl rfl
          · exact Or.inr ⟨hm2, hf⟩
      · simp only [sweepCache, if_neg hexp]
        exact ih.2.cons₂ _

/-- Instance of claim C8: sweeping a cache holding one fresh and one
expired entry keeps exactly the fresh one. -/
theorem c8_witness :
    ((("a", ⟨[], 0⟩) : String × SearchCacheEntry)
        ∈ sweepCache (searchCacheDuration + 1)
          [("a", ⟨[], 0⟩), ("b", ⟨[], searchCacheDuration⟩)] ↔
      (("a", ⟨[], 0⟩) : String × SearchCacheEntry)
          ∈ [("a", ⟨[], 0⟩), ("b", ⟨[], searchCacheDuration⟩)] ∧
        (searchCacheDuration + 1) - (0 : Int) ≤ searchCacheDuration) :=
  (c8_sweep_removes_exactly_expired (searchCacheDuration + 1)
    [("a", ⟨[], 0⟩), ("b", ⟨[], searchCacheDuration⟩)]).1 ("a", ⟨[], 0⟩)

end GameGallery
